import Mathlib

/-!
Verification of the inStock-tracker repository (src/main.py, src/serve.py).

The program checks a product page with a headless browser, classifies it as
in-stock or out-of-stock (or a failure marker, Python None), compares with a
last-known status persisted in a text file, e-mails on the out-to-in
transition, and persists the new status.

The shallow embedding below models the Python code in src/main.py.  Effects
of the outside world (the DOM of the page, whether file I/O or the SMTP
session raises) are inputs to the functions; exceptions raised by library
calls are modelled with `Except`, and each try/except block of the source is
an explicit handler on such a value.
-/

namespace InStockTracker

/-- A Python exception value, as far as the program distinguishes them:
`playwright.sync_api.TimeoutError` (caught separately at
src/main.py:134) versus every other `Exception`, which the code only
formats into a message. -/
inductive PyErr where
  | timeout
  | other (msg : String)
deriving DecidableEq

/-- The message used when the orchestrator formats a caught exception. -/
def pyErrMsg : PyErr → String
  | PyErr.timeout => "Timeout"
  | PyErr.other msg => msg

/-- Python `str.strip()` as applied at src/main.py:171: drop whitespace
characters from both ends.  (Python strips the Unicode whitespace set;
`Char.isWhitespace` covers the ASCII subset, which is all that the status
labels and proofs here touch.) -/
def pyStrip (s : String) : String :=
  String.mk (((s.data.dropWhile Char.isWhitespace).reverse.dropWhile
    Char.isWhitespace).reverse)

/-- The facts about the product page that the classification heuristics at
src/main.py:112-132 test, in source order:
whether the `div.alert.alert-danger.mt-3` element containing "Sold Out" is
visible; whether a button containing "Add to Cart" exists
(`count() > 0`), is visible, and is enabled; and whether text matching
the case-insensitive regex "not deliverable|not available at" is present
(`count() > 0`). -/
structure PageState where
  soldOutAlertVisible : Bool
  addToCartExists : Bool
  addToCartVisible : Bool
  addToCartEnabled : Bool
  undeliverableTextPresent : Bool
deriving DecidableEq

/-- The ordered classification heuristics of src/main.py:112-132, first
match winning: visible "Sold Out" alert, then existing visible enabled
"Add to Cart" button, then "not deliverable"/"not available at" text,
then the conservative default. -/
def classify (pg : PageState) : String :=
  if pg.soldOutAlertVisible then "out-of-stock"
  else if pg.addToCartExists && pg.addToCartVisible && pg.addToCartEnabled then
    "in-stock"
  else if pg.undeliverableTextPresent then "out-of-stock"
  else "out-of-stock"

/-- One execution of the browser-automation part of a probe, as the program
distinguishes the outcomes: the launch / session setup raises
(src/main.py:153), the page flow raises a Playwright timeout
(src/main.py:134), the page flow raises some other exception
(src/main.py:143), or every step succeeds and the page is in state `pg`
when the heuristics run. -/
inductive ProbeEvent where
  | launchFail (msg : String)
  | timeout
  | pageError (msg : String)
  | ok (pg : PageState)
deriving DecidableEq

/-- The body of `get_stock_status_playwright` inside the outer
`try` (src/main.py:98-152): the inner `try` converts a Playwright timeout
or any page-flow exception to `None` (src/main.py:134-150); a launch-level
exception escapes the inner handlers and propagates to the outer one. -/
def launch_and_page_flow (ev : ProbeEvent) : Except PyErr (Option String) :=
  match ev with
  | ProbeEvent.launchFail msg => Except.error (PyErr.other msg)
  | ProbeEvent.timeout => Except.ok none
  | ProbeEvent.pageError _ => Except.ok none
  | ProbeEvent.ok pg => Except.ok (some (classify pg))

/-- `get_stock_status_playwright` (src/main.py:95-156): the outer
`except Exception` converts any escaping exception to `None`. -/
def get_stock_status_playwright (ev : ProbeEvent) : Option String :=
  match launch_and_page_flow ev with
  | Except.ok r => r
  | Except.error _ => none

/-- `save_state` (src/main.py:159-164).  The state file is modelled as
`Option String` (`none` = absent); `writeFails` says whether the open or
write raises, in which case the exception is caught and the file is left
as it was. -/
def save_state (status : String) (file : Option String) (writeFails : Bool) :
    Option String :=
  if writeFails then file else some status

/-- `load_state` (src/main.py:167-174): when the file exists and reading
succeeds, return the stripped content; when the file is absent or any step
raises (`readFails`), return "out-of-stock". -/
def load_state (file : Option String) (readFails : Bool) : String :=
  match file with
  | some content => if readFails then "out-of-stock" else pyStrip content
  | none => "out-of-stock"

/-- The SMTP session inside `send_email_notification`
(src/main.py:37-40), which raises exactly when the relay, login or send
fails. -/
def send_email_smtp (smtpFails : Bool) : Except PyErr Unit :=
  if smtpFails then Except.error (PyErr.other "smtp failure") else Except.ok ()

/-- `send_email_notification` (src/main.py:25-43): the `except Exception`
catches any failure of the send so the function always returns normally.
The returned Bool records whether the mail was actually sent. -/
def send_email_notification (smtpFails : Bool) : Bool :=
  match send_email_smtp smtpFails with
  | Except.ok _ => true
  | Except.error _ => false

/-- The environment of one orchestrator invocation: the probe outcome and
whether each of the three I/O effects (state read, state write, SMTP send)
raises. -/
structure Env where
  probe : ProbeEvent
  readFails : Bool
  writeFails : Bool
  smtpFails : Bool
deriving DecidableEq

/-- The observable outcome of one orchestrator invocation: the returned
string, the state file afterwards, whether `send_email_notification` was
invoked, and whether a mail was actually delivered. -/
structure CycleResult where
  response : String
  file : Option String
  notificationFired : Bool
  emailDelivered : Bool
deriving DecidableEq

/-- The body of `buttermilk_checker_v2_function` inside its top-level `try`
(src/main.py:179-194).  `if current_status:` is Python truthiness, so both
`None` and the empty string skip the compare-notify-persist branch; the
notification condition and the unconditional `save_state` follow
src/main.py:186-190. -/
def runCheck_body (env : Env) (file : Option String) :
    Except PyErr CycleResult :=
  match get_stock_status_playwright env.probe with
  | none =>
    Except.ok { response := "Function executed successfully.", file := file,
                notificationFired := false, emailDelivered := false }
  | some cur =>
    if cur = "" then
      Except.ok { response := "Function executed successfully.", file := file,
                  notificationFired := false, emailDelivered := false }
    else
      let last := load_state file env.readFails
      let fired := (last == "out-of-stock") && (cur == "in-stock")
      let delivered :=
        if fired then send_email_notification env.smtpFails else false
      let newFile := save_state cur file env.writeFails
      Except.ok { response := "Function executed successfully.",
                  file := newFile, notificationFired := fired,
                  emailDelivered := delivered }

/-- The top-level `except Exception` of `buttermilk_checker_v2_function`
(src/main.py:195-197): an escaping exception is converted to the failure
string, and the state file is whatever it was when the exception was
raised (in this body, no write precedes any raising step that escapes). -/
def runCheck_handler (body : Except PyErr CycleResult) (file : Option String) :
    CycleResult :=
  match body with
  | Except.ok r => r
  | Except.error e =>
    { response := "Function failed with an error: " ++ pyErrMsg e,
      file := file, notificationFired := false, emailDelivered := false }

/-- `buttermilk_checker_v2_function` (src/main.py:177-197), the
orchestrator `runCheck` of the spec. -/
def buttermilk_checker_v2_function (env : Env) (file : Option String) :
    CycleResult :=
  runCheck_handler (runCheck_body env file) file

/-- Helper: the classifier only ever produces the two stable labels. -/
theorem classify_cases (pg : PageState) :
    classify pg = "in-stock" ∨ classify pg = "out-of-stock" := by
  obtain ⟨so, e, v, en, u⟩ := pg
  revert so e v en u
  decide

/-- Helper: the classifier never produces the empty string, so the Python
truthiness test in the orchestrator coincides with the probe succeeding. -/
theorem classify_ne_empty (pg : PageState) : classify pg ≠ "" := by
  rcases classify_cases pg with h | h <;> rw [h] <;> decide

/-- Helper: a probe that returns a value (rather than the failure marker)
returns one of the two stable labels. -/
theorem get_stock_some (ev : ProbeEvent) (cur : String)
    (h : get_stock_status_playwright ev = some cur) :
    cur = "in-stock" ∨ cur = "out-of-stock" := by
  cases ev with
  | launchFail msg => exact absurd h (by simp [get_stock_status_playwright,
      launch_and_page_flow])
  | timeout => exact absurd h (by simp [get_stock_status_playwright,
      launch_and_page_flow])
  | pageError msg => exact absurd h (by simp [get_stock_status_playwright,
      launch_and_page_flow])
  | ok pg =>
    have hc : classify pg = cur := by
      simpa [get_stock_status_playwright, launch_and_page_flow] using h
    rw [← hc]
    exact classify_cases pg

/-- Helper: on a successful probe with a successful state write, the file
afterwards holds exactly the classification, whatever the read outcome and
whatever the SMTP send outcome. -/
theorem runCheck_ok_file (pg : PageState) (file : Option String)
    (r s : Bool) :
    (buttermilk_checker_v2_function ⟨ProbeEvent.ok pg, r, false, s⟩
      file).file = some (classify pg) := by
  rcases classify_cases pg with hc | hc <;>
    simp [buttermilk_checker_v2_function, runCheck_handler, runCheck_body,
      get_stock_status_playwright, launch_and_page_flow, save_state, hc]

/-- Helper: one invocation either leaves the file as it was or writes one
of the two stable labels. -/
theorem runCheck_file_cases (env : Env) (file : Option String) :
    (buttermilk_checker_v2_function env file).file = file
    ∨ (buttermilk_checker_v2_function env file).file = some "in-stock"
    ∨ (buttermilk_checker_v2_function env file).file = some "out-of-stock"
    := by
  cases hp : get_stock_status_playwright env.probe with
  | none =>
    left
    simp [buttermilk_checker_v2_function, runCheck_handler, runCheck_body,
      hp]
  | some cur =>
    rcases get_stock_some env.probe cur hp with hc | hc <;> subst hc <;>
      cases hw : env.writeFails <;>
      simp [buttermilk_checker_v2_function, runCheck_handler, runCheck_body,
        save_state, hp, hw]

/-- Helper: the stable labels are fixed points of stripping. -/
theorem pyStrip_labels :
    pyStrip "in-stock" = "in-stock"
    ∧ pyStrip "out-of-stock" = "out-of-stock" := by
  constructor <;> decide

/-- C1: for every prior persisted status in the two stable labels and every
successful probe result, one invocation of the orchestrator invokes the
e-mail notification if and only if the prior status is "out-of-stock" and
the probe classified the page "in-stock". -/
theorem notification_iff_transition (pg : PageState) (prev : String)
    (w s : Bool) (hprev : prev = "in-stock" ∨ prev = "out-of-stock") :
    (buttermilk_checker_v2_function ⟨ProbeEvent.ok pg, false, w, s⟩
      (some prev)).notificationFired = true
    ↔ (prev = "out-of-stock" ∧ classify pg = "in-stock") := by
  rcases hprev with h | h <;> subst h <;>
    rcases classify_cases pg with hc | hc <;>
      simp [buttermilk_checker_v2_function, runCheck_handler, runCheck_body,
        get_stock_status_playwright, launch_and_page_flow, load_state,
        save_state, hc, pyStrip_labels.1, pyStrip_labels.2]

/-- Witness for C1 at a concrete transition: prior "out-of-stock", page
with an enabled visible Add-to-Cart button. -/
theorem notification_iff_transition_witness :
    (("out-of-stock" : String) = "in-stock"
      ∨ ("out-of-stock" : String) = "out-of-stock")
    ∧ ((buttermilk_checker_v2_function
        ⟨ProbeEvent.ok ⟨false, true, true, true, false⟩, false, false,
          false⟩ (some "out-of-stock")).notificationFired = true
      ↔ (("out-of-stock" : String) = "out-of-stock"
        ∧ classify ⟨false, true, true, true, false⟩ = "in-stock")) :=
  ⟨Or.inr rfl,
    notification_iff_transition ⟨false, true, true, true, false⟩
      "out-of-stock" false false (Or.inr rfl)⟩

/-- C2: after any invocation whose probe returned a value and whose state
write succeeded, the persisted state equals that probe result, whatever
the read outcome and whatever the notification and its send did. -/
theorem persist_eq_probe_result (pg : PageState) (file : Option String)
    (r s : Bool) :
    (buttermilk_checker_v2_function ⟨ProbeEvent.ok pg, r, false, s⟩
      file).file = some (classify pg) :=
  runCheck_ok_file pg file r s

/-- C3: when the probe returns the failure marker, the invocation leaves
the state file untouched and still returns the success message. -/
theorem probe_failure_leaves_state (env : Env) (file : Option String)
    (h : get_stock_status_playwright env.probe = none) :
    (buttermilk_checker_v2_function env file).file = file
    ∧ (buttermilk_checker_v2_function env file).response
      = "Function executed successfully." := by
  simp [buttermilk_checker_v2_function, runCheck_handler, runCheck_body, h]

/-- Witness for C3 at a concrete input: a Playwright timeout with the file
holding "in-stock". -/
theorem probe_failure_leaves_state_witness :
    get_stock_status_playwright ProbeEvent.timeout = none
    ∧ ((buttermilk_checker_v2_function
        ⟨ProbeEvent.timeout, false, false, false⟩
        (some "in-stock")).file = some "in-stock"
      ∧ (buttermilk_checker_v2_function
        ⟨ProbeEvent.timeout, false, false, false⟩
        (some "in-stock")).response = "Function executed successfully.") :=
  ⟨rfl, probe_failure_leaves_state ⟨ProbeEvent.timeout, false, false, false⟩
    (some "in-stock") rfl⟩

/-- C4 counterexample: a readable state file whose content is not one of
the two stable labels is returned as-is by `load_state`, not replaced by
the default "out-of-stock" the claim requires. -/
theorem load_state_malformed_not_defaulted :
    load_state (some "garbage") false = "garbage"
    ∧ ("garbage" : String) ≠ "out-of-stock" := by
  constructor <;> decide

/-- C4 amended: `load_state` returns "out-of-stock" exactly when the file
is missing (first run included) or unreadable; when the file is present
and readable it returns the stripped content verbatim, whether or not it
is a stable label. -/
theorem load_state_default_amended (s : String) :
    load_state none false = "out-of-stock"
    ∧ load_state none true = "out-of-stock"
    ∧ load_state (some s) true = "out-of-stock"
    ∧ load_state (some s) false = pyStrip s := by
  refine ⟨rfl, rfl, ?_, ?_⟩ <;> simp [load_state]

/-- C5: the classifier applies its heuristics in source order with the
first match winning: visible Sold-Out alert, then existing visible
enabled Add-to-Cart button, then undeliverable text, then the
conservative default, the last three branches giving "out-of-stock". -/
theorem classify_ordered_heuristics (pg : PageState) :
    (pg.soldOutAlertVisible = true → classify pg = "out-of-stock")
    ∧ (pg.soldOutAlertVisible = false →
        (pg.addToCartExists && pg.addToCartVisible && pg.addToCartEnabled)
          = true → classify pg = "in-stock")
    ∧ (pg.soldOutAlertVisible = false →
        (pg.addToCartExists && pg.addToCartVisible && pg.addToCartEnabled)
          = false → pg.undeliverableTextPresent = true →
        classify pg = "out-of-stock")
    ∧ (pg.soldOutAlertVisible = false →
        (pg.addToCartExists && pg.addToCartVisible && pg.addToCartEnabled)
          = false → pg.undeliverableTextPresent = false →
        classify pg = "out-of-stock") := by
  obtain ⟨so, e, v, en, u⟩ := pg
  revert so e v en u
  decide

/-- Witness for C5: one concrete page state per heuristic branch. -/
theorem classify_ordered_heuristics_witness :
    classify ⟨true, true, true, true, false⟩ = "out-of-stock"
    ∧ classify ⟨false, true, true, true, false⟩ = "in-stock"
    ∧ classify ⟨false, false, true, true, true⟩ = "out-of-stock"
    ∧ classify ⟨false, false, true, true, false⟩ = "out-of-stock" :=
  ⟨(classify_ordered_heuristics ⟨true, true, true, true, false⟩).1 rfl,
    (classify_ordered_heuristics ⟨false, true, true, true, false⟩).2.1 rfl
      rfl,
    (classify_ordered_heuristics ⟨false, false, true, true, true⟩).2.2.1 rfl
      rfl rfl,
    (classify_ordered_heuristics ⟨false, false, true, true, false⟩).2.2.2
      rfl rfl rfl⟩

/-- C6: the prober returns one of exactly three values in every execution,
and every automation exception (launch failure, Playwright timeout, other
page-flow exception) is converted to the failure marker. -/
theorem prober_never_raises :
    (∀ ev, get_stock_status_playwright ev = none
      ∨ get_stock_status_playwright ev = some "in-stock"
      ∨ get_stock_status_playwright ev = some "out-of-stock")
    ∧ (∀ msg, get_stock_status_playwright (ProbeEvent.launchFail msg)
        = none)
    ∧ get_stock_status_playwright ProbeEvent.timeout = none
    ∧ (∀ msg, get_stock_status_playwright (ProbeEvent.pageError msg)
        = none)
    ∧ (∀ pg, get_stock_status_playwright (ProbeEvent.ok pg)
        = some (classify pg)) := by
  refine ⟨?_, fun _ => rfl, rfl, fun _ => rfl, fun _ => rfl⟩
  intro ev
  cases ev with
  | launchFail msg => exact Or.inl rfl
  | timeout => exact Or.inl rfl
  | pageError msg => exact Or.inl rfl
  | ok pg =>
    rcases classify_cases pg with h | h
    · exact Or.inr (Or.inl (by simp [get_stock_status_playwright,
        launch_and_page_flow, h]))
    · exact Or.inr (Or.inr (by simp [get_stock_status_playwright,
        launch_and_page_flow, h]))

/-- C7: the orchestrator always returns a string normally — in every
modelled execution its components catch their own exceptions, so the
response is the success message — and its top-level handler converts any
exception that did escape the body into the failure string. -/
theorem runCheck_total_returns :
    (∀ env file, (buttermilk_checker_v2_function env file).response
      = "Function executed successfully.")
    ∧ (∀ e file, runCheck_handler (Except.error e) file
      = { response := "Function failed with an error: " ++ pyErrMsg e,
          file := file, notificationFired := false,
          emailDelivered := false }) := by
  constructor
  · intro env file
    cases h : get_stock_status_playwright env.probe with
    | none =>
      simp [buttermilk_checker_v2_function, runCheck_handler, runCheck_body,
        h]
    | some cur =>
      by_cases hc : cur = "" <;>
        simp [buttermilk_checker_v2_function, runCheck_handler,
          runCheck_body, h, hc]
  · intro e file
    rfl

/-- C8: when the notification fires and the SMTP send fails, the send
failure is caught inside the notifier (it returns normally, reporting no
delivery) and the state file is still overwritten with the probe result,
exactly as in the cycle where the send succeeds. -/
theorem notifier_failure_preserves_persistence (pg : PageState)
    (file : Option String) (r : Bool)
    (hfired : (buttermilk_checker_v2_function
      ⟨ProbeEvent.ok pg, r, false, true⟩ file).notificationFired = true) :
    (buttermilk_checker_v2_function ⟨ProbeEvent.ok pg, r, false, true⟩
      file).file = some (classify pg)
    ∧ (buttermilk_checker_v2_function ⟨ProbeEvent.ok pg, r, false, true⟩
        file).file
      = (buttermilk_checker_v2_function ⟨ProbeEvent.ok pg, r, false, false⟩
        file).file
    ∧ send_email_notification true = false :=
  ⟨runCheck_ok_file pg file r true,
    (runCheck_ok_file pg file r true).trans
      (runCheck_ok_file pg file r false).symm,
    rfl⟩

/-- Witness for C8: prior "out-of-stock", an in-stock page, SMTP failing —
the notification fires and the state is still persisted. -/
theorem notifier_failure_preserves_persistence_witness :
    (buttermilk_checker_v2_function
      ⟨ProbeEvent.ok ⟨false, true, true, true, false⟩, false, false, true⟩
      (some "out-of-stock")).notificationFired = true
    ∧ ((buttermilk_checker_v2_function
        ⟨ProbeEvent.ok ⟨false, true, true, true, false⟩, false, false,
          true⟩ (some "out-of-stock")).file
        = some (classify ⟨false, true, true, true, false⟩)
      ∧ (buttermilk_checker_v2_function
          ⟨ProbeEvent.ok ⟨false, true, true, true, false⟩, false, false,
            true⟩ (some "out-of-stock")).file
        = (buttermilk_checker_v2_function
          ⟨ProbeEvent.ok ⟨false, true, true, true, false⟩, false, false,
            false⟩ (some "out-of-stock")).file
      ∧ send_email_notification true = false) :=
  ⟨by decide,
    notifier_failure_preserves_persistence ⟨false, true, true, true, false⟩
      (some "out-of-stock") false (by decide)⟩

/-- C9: starting from a file that is absent or holds a stable label, after
any invocation the file is still absent or holds a stable label — the
failure marker is never written. -/
theorem persisted_state_invariant (env : Env) (file : Option String)
    (h : file = none ∨ file = some "in-stock"
      ∨ file = some "out-of-stock") :
    (buttermilk_checker_v2_function env file).file = none
    ∨ (buttermilk_checker_v2_function env file).file = some "in-stock"
    ∨ (buttermilk_checker_v2_function env file).file = some "out-of-stock"
    := by
  rcases runCheck_file_cases env file with hf | hf | hf
  · rw [hf]
    exact h
  · exact Or.inr (Or.inl hf)
  · exact Or.inr (Or.inr hf)

/-- Witness for C9: first run (absent file) with a probe timeout. -/
theorem persisted_state_invariant_witness :
    ((none : Option String) = none
      ∨ (none : Option String) = some "in-stock"
      ∨ (none : Option String) = some "out-of-stock")
    ∧ ((buttermilk_checker_v2_function
        ⟨ProbeEvent.timeout, false, false, false⟩ none).file = none
      ∨ (buttermilk_checker_v2_function
        ⟨ProbeEvent.timeout, false, false, false⟩ none).file
        = some "in-stock"
      ∨ (buttermilk_checker_v2_function
        ⟨ProbeEvent.timeout, false, false, false⟩ none).file
        = some "out-of-stock") :=
  ⟨Or.inl rfl,
    persisted_state_invariant ⟨ProbeEvent.timeout, false, false, false⟩
      none (Or.inl rfl)⟩

/-- C10: for a status string with no surrounding whitespace (stripping is
the identity on it), a successful save followed by a successful load
returns exactly that string. -/
theorem state_roundtrip (status : String) (file : Option String)
    (h : pyStrip status = status) :
    load_state (save_state status file false) false = status := by
  simp [save_state, load_state, h]

/-- Witness for C10 at the label "in-stock" on a fresh file. -/
theorem state_roundtrip_witness :
    pyStrip "in-stock" = "in-stock"
    ∧ load_state (save_state "in-stock" none false) false = "in-stock" :=
  ⟨by decide, state_roundtrip "in-stock" none (by decide)⟩

end InStockTracker
